import Mathlib

/-
Verification development for the ShadowChat relay server.

The repository ships several variants of the same relay server; each is
embedded in its own namespace:

* `Backend4`   — the "Secure Backend v4" variant (src/unnamed/part_001):
                 rate limiter, deterministic session ids, TTL sweep,
                 duplicate-message suppression.
* `RelayV1`    — the "relay + metrics" variant (first document of
                 src/server.js): chat-id format check, fresh message ids,
                 self-destruct timers bounded by five minutes.
* `StableRelay`— the "UPDATED STABLE RELAY" variant (first document of
                 src/unnamed/part_000): guarded close cleanup, unbounded
                 self-destruct timers.
* `GroupRelay` — the group-capable variant (second document of
                 src/server.js): create-group / group-join-request /
                 group-approve handlers.

JavaScript `Map`s are embedded as association lists with `Map.get`,
`Map.set` and `Map.delete` modelled by `List.lookup`, `setKey` and
`eraseKey`.  WebSocket handles are natural numbers; a send is modelled as
an addressed pair `(userId, payload)` (sockets are taken to be open, the
only aspect of `readyState` the claims mention is registration).  Wall
clock time is an `Int` of milliseconds passed in explicitly, and the
random components of generated ids are passed in as parameters.
-/

namespace ShadowChat

/-- One inbound JSON envelope.  Fields that the JavaScript destructures but
a client may omit are given the JS falsy markers: a missing string field is
`""`, a missing `text`/`newText`/`selfDestruct` is `none`, a missing flag is
`false`. -/
structure Envelope where
  type : String
  userId : String
  name : String
  fromId : String
  toId : String
  accept : Bool
  sessionId : String
  id : String
  text : Option String
  selfDestruct : Option Int
  encrypted : Bool
  messageId : String
  newText : Option String
deriving DecidableEq, Repr

/-- The all-fields-absent envelope; concrete envelopes are built from it by
structure update. -/
def Envelope.blank : Envelope :=
  ⟨"", "", "", "", "", false, "", "", none, none, false, "", none⟩

/-- Outbound payloads, one constructor per JSON object literal the server
variants send. -/
inductive Out where
  | helloAck (ok : Bool)
  | stats (activeConnections : Int)
  | requestFailed (reason : String)
  | incomingRequest (fromId : String)
  | incomingRequestNamed (fromId fromName : String)
  | requestSent (toId : String)
  | chatStart (sessionId peerId : String)
  | chatStartNamed (sessionId peerId peerName : String)
  | message (id fromId toId text : String) (selfDestruct : Int)
      (encrypted : Bool) (timestamp : Int)
  | deleteMessage (id sessionId : String)
  | editMessage (id sessionId newText : String)
  | sessionEnded (sessionId : String)
  | relay (e : Envelope)
  | turnCredentials
  | messageBody (sessionId fromId : String) (text : Option String)
      (timestamp : Int)
  | groupJoined (groupId : String)
deriving DecidableEq, Repr

/-- Deferred tasks armed with `setTimeout`, one constructor per call site. -/
inductive Timer where
  | deleteMsg (delayMs : Int) (msgId sessionId : String)
  | deleteBody (delayMs : Int) (sessionId : String) (idTimestamp : Int)
  | expireRecent (delayMs : Int) (msgId : String)
deriving DecidableEq, Repr

/-- `Map.set`: replace the binding in place if the key is present, append
otherwise (JS maps keep insertion order). -/
def setKey (m : List (String × α)) (k : String) (v : α) : List (String × α) :=
  match m with
  | [] => [(k, v)]
  | p :: rest => if p.1 == k then (k, v) :: rest else p :: setKey rest k v

/-- `Map.delete`: remove the binding of `k` (a JS map holds each key once). -/
def eraseKey (m : List (String × α)) (k : String) : List (String × α) :=
  m.filter (fun p => p.1 != k)

/-- `makeSessionId` as in src/server.js lines 25-27 and src/unnamed/part_001
lines 21-23: `[a, b].sort().join("#")`.  The default JS sort of a two
element array keeps the pair when `a <= b` and swaps it otherwise. -/
def makeSessionId (a b : String) : String :=
  String.intercalate "#" (if b < a then [b, a] else [a, b])

theorem lookup_setKey_self (m : List (String × α)) (k : String) (v : α) :
    (setKey m k v).lookup k = some v := by
  induction m with
  | nil => simp [setKey, List.lookup]
  | cons p rest ih =>
      by_cases h : p.1 = k
      · simp [setKey, h, List.lookup]
      · have h2 : (k == p.1) = false :=
          beq_eq_false_iff_ne.mpr fun hk => h hk.symm
        simp [setKey, h, List.lookup, h2, ih]

theorem lookup_eraseKey_self (m : List (String × α)) (k : String) :
    (eraseKey m k).lookup k = none := by
  induction m with
  | nil => simp [eraseKey, List.lookup]
  | cons p rest ih =>
      by_cases h : p.1 = k
      · have hb : (p.1 != k) = false := by simp [h]
        simp only [eraseKey] at ih ⊢
        rw [List.filter_cons, hb]
        simpa using ih
      · have hb : (p.1 != k) = true := by simp [h]
        have h2 : (k == p.1) = false :=
          beq_eq_false_iff_ne.mpr fun hk => h hk.symm
        simp only [eraseKey] at ih ⊢
        rw [List.filter_cons, hb]
        simpa [List.lookup, h2] using ih

/- ==================================================================
   Backend4: the "Secure Backend v4" variant, src/unnamed/part_001.
   ================================================================== -/

namespace Backend4

/-- A rate-limit bucket, `rateLimits.get(userId)`: `{ count, time }`. -/
structure Bucket where
  count : Nat
  time : Int
deriving DecidableEq, Repr

/-- `rateLimitCheck(userId)` from src/unnamed/part_001 lines 31-45,
returning the admission verdict together with the updated `rateLimits`
map.  The denied branch returns before any `rateLimits.set`, so the map
is unchanged there. -/
def rateLimitCheck (now : Int) (userId : String)
    (rateLimits : List (String × Bucket)) : Bool × List (String × Bucket) :=
  let limit := (rateLimits.lookup userId).getD ⟨0, now⟩
  if now - limit.time > 5000 then
    (true, setKey rateLimits userId ⟨1, now⟩)
  else if limit.count > 40 then
    (false, rateLimits)
  else
    (true, setKey rateLimits userId ⟨limit.count + 1, limit.time⟩)

/-- A pairwise session: `{ aId, bId, createdAt }`. -/
structure Session where
  aId : String
  bId : String
  createdAt : Int
deriving DecidableEq, Repr

/-- `SESSION_TTL = 30 * 60 * 1000`. -/
def SESSION_TTL : Int := 30 * 60 * 1000

/-- The mutable module state of src/unnamed/part_001: `clients`,
`sessions`, `rateLimits` and the `recentMessages` set (the socket stored
for a client is its handle). -/
structure St where
  clients : List (String × Nat)
  sessions : List (String × Session)
  rateLimits : List (String × Bucket)
  recent : List String
deriving DecidableEq, Repr

/-- `sendToUser(userId, payload)`: delivers only when the id is
registered (the open-socket check is abstracted away, see the header). -/
def sendToUser (st : St) (userId : String) (payload : Out) :
    List (String × Out) :=
  match st.clients.lookup userId with
  | none => []
  | some _ => [(userId, payload)]

/-- Result of one inbound frame: updated state, sends, armed timers,
whether `ws.terminate()` was called, and the connection-local
`currentUserId` afterwards (`""` plays the role of JS `null`). -/
structure Res where
  st : St
  sends : List (String × Out)
  timers : List Timer
  terminated : Bool
  uid : String
deriving DecidableEq, Repr

/-- The `request-chat` block (lines 123-132): an unregistered `toId` is
silently dropped, otherwise the destination gets `incoming-request`. -/
def requestChat (st : St) (data : Envelope) : List (String × Out) :=
  if (st.clients.lookup data.toId).isNone then []
  else sendToUser st data.toId (Out.incomingRequest data.fromId)

/-- The `response-chat` block (lines 135-150). -/
def responseChat (now : Int) (st : St) (data : Envelope) :
    St × List (String × Out) :=
  if !data.accept then (st, [])
  else
    let sid := makeSessionId data.fromId data.toId
    let st2 : St :=
      { st with sessions := setKey st.sessions sid ⟨data.fromId, data.toId, now⟩ }
    (st2,
      sendToUser st2 data.fromId (Out.chatStart sid data.toId) ++
      sendToUser st2 data.toId (Out.chatStart sid data.fromId))

/-- The `message` block (lines 153-166): resolve the session, drop a
duplicate id, record the id in `recentMessages` (with a 60 s expiry
timer) and forward the inbound envelope verbatim to the other
participant. -/
def messageRelay (uid : String) (st : St) (data : Envelope) :
    St × List (String × Out) × List Timer :=
  match st.sessions.lookup data.sessionId with
  | none => (st, [], [])
  | some s =>
      if data.id ∈ st.recent then (st, [], [])
      else
        let st2 : St := { st with recent := data.id :: st.recent }
        let target := if uid == s.aId then s.bId else s.aId
        (st2, sendToUser st2 target (Out.relay data),
          [Timer.expireRecent 60000 data.id])

/-- The whole `ws.on("message")` callback of src/unnamed/part_001
(lines 94-176): parse, `hello`, the registration guard, the rate-limit
gate (`ws.terminate()` on denial), then dispatch by `type`.  `raw = none`
is a frame that failed `JSON.parse`. -/
def onMessage (now : Int) (uid : String) (ws : Nat) (st : St)
    (raw : Option Envelope) : Res :=
  match raw with
  | none => ⟨st, [], [], false, uid⟩
  | some data =>
      if data.type == "" then ⟨st, [], [], false, uid⟩
      else if data.type == "hello" then
        -- currentUserId = data.userId; if falsy, return with it assigned
        if data.userId == "" then ⟨st, [], [], false, data.userId⟩
        else
          let st2 : St :=
            { st with clients := setKey st.clients data.userId ws }
          ⟨st2, sendToUser st2 data.userId (Out.helloAck true), [], false,
            data.userId⟩
      else if uid == "" then ⟨st, [], [], false, uid⟩
      else
        let gate := rateLimitCheck now uid st.rateLimits
        let stg : St := { st with rateLimits := gate.2 }
        if !gate.1 then ⟨stg, [], [], true, uid⟩
        else if data.type == "request-chat" then
          ⟨stg, requestChat stg data, [], false, uid⟩
        else if data.type == "response-chat" then
          let r := responseChat now stg data
          ⟨r.1, r.2, [], false, uid⟩
        else if data.type == "message" then
          let r := messageRelay uid stg data
          ⟨r.1, r.2.1, r.2.2, false, uid⟩
        else if data.type == "get-turn" then
          ⟨stg, sendToUser stg uid Out.turnCredentials, [], false, uid⟩
        else ⟨stg, [], [], false, uid⟩

/-- The session-cleanup interval body (lines 187-194): every entry whose
age exceeds `SESSION_TTL` is deleted; the loop body contains no send, so
the second component (messages emitted by the sweep) is always empty. -/
def sweepExpired (now : Int) :
    List (String × Session) → List (String × Session) × List (String × Out)
  | [] => ([], [])
  | p :: rest =>
      let r := sweepExpired now rest
      if now - p.2.createdAt > SESSION_TTL then r else (p :: r.1, r.2)

/-- `n` consecutive invocations of `rateLimitCheck` by the same identity
at one instant, counting how many are admitted. -/
def repeatCalls (now : Int) (userId : String) :
    Nat → List (String × Bucket) → Nat × List (String × Bucket)
  | 0, m => (0, m)
  | n + 1, m =>
      let r := rateLimitCheck now userId m
      let rest := repeatCalls now userId n r.2
      ((if r.1 then 1 else 0) + rest.1, rest.2)

end Backend4

/- ==================================================================
   RelayV1: the "relay + metrics" variant, first document of
   src/server.js (lines 1-315).
   ================================================================== -/

namespace RelayV1

/-- A `clients` entry: `{ ws, name }`. -/
structure Client where
  ws : Nat
  name : String
deriving DecidableEq, Repr

/-- A `sessions` entry: `{ aId, bId }`. -/
structure Sess where
  aId : String
  bId : String
deriving DecidableEq, Repr

/-- The mutable module state: `clients` and `sessions`. -/
structure St where
  clients : List (String × Client)
  sessions : List (String × Sess)
deriving DecidableEq, Repr

/-- `sendToUser(userId, payload)` (lines 29-37): silently drops when the
id is not registered. -/
def sendToUser (st : St) (userId : String) (payload : Out) :
    List (String × Out) :=
  match st.clients.lookup userId with
  | none => []
  | some _ => [(userId, payload)]

/-- `broadcastStats()` (lines 39-49): a `stats` payload to every
registered client. -/
def broadcastStats (st : St) (active : Int) : List (String × Out) :=
  st.clients.map fun p => (p.1, Out.stats active)

/-- `clients.get(id)?.name || dflt`: the stored display name with a
fallback (also covering a stored empty name, which is falsy). -/
def nameOr (st : St) (userId dflt : String) : String :=
  match st.clients.lookup userId with
  | none => dflt
  | some c => if c.name == "" then dflt else c.name

/-- Uppercase-alphanumeric character class `[A-Z0-9]` of the chat-id
regex, by code point (65-90 is A-Z, 48-57 is 0-9). -/
def isUpperAlnum (c : Char) : Bool :=
  (65 ≤ c.toNat && c.toNat ≤ 90) || (48 ≤ c.toNat && c.toNat ≤ 57)

/-- The test `/^SC-[A-Z0-9]{4}-[A-Z0-9]{4}$/.test(toId)` of line 126
(codes 83, 67, 45 are the characters S, C and the hyphen). -/
def scIdFormat (s : String) : Bool :=
  match s.data with
  | [c0, c1, c2, a1, a2, a3, a4, c3, b1, b2, b3, b4] =>
      c0.toNat == 83 && c1.toNat == 67 && c2.toNat == 45 && c3.toNat == 45 &&
      ([a1, a2, a3, a4, b1, b2, b3, b4].all isUpperAlnum)
  | _ => false

/-- The `request-chat` block (lines 120-155): format check, then
presence check, each failure answered with `request-failed` to `fromId`;
on success `incoming-request` to the destination and `request-sent` back. -/
def requestChat (st : St) (data : Envelope) : List (String × Out) :=
  if data.fromId == "" || data.toId == "" then []
  else if !scIdFormat data.toId then
    sendToUser st data.fromId (Out.requestFailed "Invalid Chat ID format.")
  else if (st.clients.lookup data.toId).isNone then
    sendToUser st data.fromId (Out.requestFailed "Target user not online.")
  else
    sendToUser st data.toId
      (Out.incomingRequestNamed data.fromId (nameOr st data.fromId "Anonymous")) ++
    sendToUser st data.fromId (Out.requestSent data.toId)

/-- The `response-chat` block (lines 158-196). -/
def responseChat (st : St) (data : Envelope) : St × List (String × Out) :=
  if data.fromId == "" || data.toId == "" then (st, [])
  else if !data.accept then
    (st, sendToUser st data.toId (Out.requestFailed "Request rejected."))
  else
    let sid := makeSessionId data.fromId data.toId
    let st2 : St :=
      { st with sessions := setKey st.sessions sid ⟨data.fromId, data.toId⟩ }
    (st2,
      sendToUser st2 data.fromId
        (Out.chatStartNamed sid data.toId (nameOr st2 data.toId "User")) ++
      sendToUser st2 data.toId
        (Out.chatStartNamed sid data.fromId (nameOr st2 data.fromId "User")))

/-- The `message` block (lines 199-250): resolve the session, pick the
other participant, build the canonical payload with the fresh id
`sessionId:now:rand` and the server timestamp, send it to sender and
peer, and arm a `delete-message` timer only when
`0 < ttl && ttl <= 5 * 60 * 1000`. -/
def messageRelay (now : Int) (rand : String) (st : St) (data : Envelope) :
    List (String × Out) × List Timer :=
  if data.sessionId == "" || data.fromId == "" || data.text.isNone then
    ([], [])
  else
    match st.sessions.lookup data.sessionId with
    | none => ([], [])
    | some s =>
        let toId := if s.aId == data.fromId then s.bId else s.aId
        if toId == "" then ([], [])
        else
          let msgId := data.sessionId ++ ":" ++ toString now ++ ":" ++ rand
          let sd : Int := (data.selfDestruct.getD 0)
          let payload :=
            Out.message msgId data.fromId toId (data.text.getD "") sd
              data.encrypted now
          let ttl := sd
          (sendToUser st data.fromId payload ++ sendToUser st toId payload,
            if 0 < ttl ∧ ttl ≤ 5 * 60 * 1000 then
              [Timer.deleteMsg ttl msgId data.sessionId]
            else [])

/-- The `edit-message` block (lines 253-270). -/
def editMessage (st : St) (data : Envelope) : List (String × Out) :=
  if data.sessionId == "" || data.messageId == "" || data.newText.isNone then
    []
  else
    match st.sessions.lookup data.sessionId with
    | none => []
    | some s =>
        let payload :=
          Out.editMessage data.messageId data.sessionId (data.newText.getD "")
        sendToUser st s.aId payload ++ sendToUser st s.bId payload

/-- The `end-session` block (lines 273-288). -/
def endSession (st : St) (data : Envelope) : St × List (String × Out) :=
  if data.sessionId == "" then (st, [])
  else
    match st.sessions.lookup data.sessionId with
    | none => (st, [])
    | some s =>
        let st2 : St := { st with sessions := eraseKey st.sessions data.sessionId }
        (st2,
          sendToUser st2 s.aId (Out.sessionEnded data.sessionId) ++
          sendToUser st2 s.bId (Out.sessionEnded data.sessionId))

/-- Result of one inbound frame, as in `Backend4.Res` but without a
rate-limit gate (this variant never terminates a connection from the
message handler). -/
structure Res where
  st : St
  sends : List (String × Out)
  timers : List Timer
  uid : String
deriving DecidableEq, Repr

/-- The whole `ws.on("message")` callback (lines 82-298): parse, `hello`
(register, ack, stats broadcast), the registration guard, then the
if-chain over `type`; an unknown type falls through every branch to the
end of the callback. -/
def onMessage (now : Int) (rand : String) (uid : String) (ws : Nat)
    (active : Int) (st : St) (raw : Option Envelope) : Res :=
  match raw with
  | none => ⟨st, [], [], uid⟩
  | some data =>
      if data.type == "hello" then
        if data.userId == "" then ⟨st, [], [], uid⟩
        else
          let nm := if data.name == "" then "User" else data.name
          let st2 : St :=
            { st with clients := setKey st.clients data.userId ⟨ws, nm⟩ }
          ⟨st2,
            sendToUser st2 data.userId (Out.helloAck true) ++
            broadcastStats st2 active, [], data.userId⟩
      else if uid == "" then ⟨st, [], [], uid⟩
      else if data.type == "request-chat" then
        ⟨st, requestChat st data, [], uid⟩
      else if data.type == "response-chat" then
        let r := responseChat st data
        ⟨r.1, r.2, [], uid⟩
      else if data.type == "message" then
        let r := messageRelay now rand st data
        ⟨st, r.1, r.2, uid⟩
      else if data.type == "edit-message" then
        ⟨st, editMessage st data, [], uid⟩
      else if data.type == "end-session" then
        let r := endSession st data
        ⟨r.1, r.2, [], uid⟩
      else if data.type == "get-stats" then
        ⟨st, sendToUser st uid (Out.stats active), [], uid⟩
      else ⟨st, [], [], uid⟩

/-- The `ws.on("close")` callback (lines 300-310): decrement counters,
then `if (currentUserId && clients.has(currentUserId)) clients.delete(...)`
— the stored handle is never compared with the closing socket — then
`broadcastStats()`.  The closing socket is received (as the callback
closes over `ws`) but unused. -/
def close (_ws : Nat) (uid : String) (active : Int) (st : St) :
    St × List (String × Out) :=
  if uid == "" then (st, broadcastStats st active)
  else if (st.clients.lookup uid).isSome then
    let st2 : St := { st with clients := eraseKey st.clients uid }
    (st2, broadcastStats st2 active)
  else (st, broadcastStats st active)

end RelayV1

/- ==================================================================
   StableRelay: the "UPDATED STABLE RELAY" variant, first document of
   src/unnamed/part_000 (lines 1-404).
   ================================================================== -/

namespace StableRelay

/-- A `users` entry: `{ socket, name }`. -/
structure User where
  socket : Nat
  name : String
deriving DecidableEq, Repr

/-- The mutable module state: `users` and `sessions` (a session stores
`{ users: [id1, id2] }`); the `groups` map is untouched by the handlers
embedded here. -/
structure St where
  users : List (String × User)
  sessions : List (String × List String)
deriving DecidableEq, Repr

/-- `broadcastToSession(sessionId, payload)` (lines 62-70): the payload
goes to every member of the session that is present in `users`. -/
def broadcastToSession (st : St) (sessionId : String) (payload : Out) :
    List (String × Out) :=
  match st.sessions.lookup sessionId with
  | none => []
  | some members =>
      members.filterMap fun uid =>
        match st.users.lookup uid with
        | none => none
        | some _ => some (uid, payload)

/-- The `message` block (lines 216-242): broadcast
`{type, sessionId, from, text, timestamp}` to the session, and — with no
upper bound — arm a `delete-message` timer whenever `selfDestruct` is
truthy and `Number(selfDestruct) > 0`; the delayed payload carries
`payload.timestamp` as its id. -/
def messageRelay (now : Int) (st : St) (data : Envelope) :
    List (String × Out) × List Timer :=
  if (st.sessions.lookup data.sessionId).isNone then ([], [])
  else
    let payload := Out.messageBody data.sessionId data.fromId data.text now
    (broadcastToSession st data.sessionId payload,
      match data.selfDestruct with
      | none => []
      | some n =>
          if n != 0 then
            if n > 0 then [Timer.deleteBody n data.sessionId now] else []
          else [])

/-- The `ws.on("close")` callback (lines 378-397): the user is deleted
only when the stored socket is the closing one; in that case every
session containing the user is ended with a broadcast (sent after
`users.delete`, so the closing user never receives it) and removed. -/
def close (ws : Nat) (uid : String) (st : St) : St × List (String × Out) :=
  if uid == "" then (st, [])
  else
    match st.users.lookup uid with
    | none => (st, [])
    | some u =>
        if u.socket == ws then
          let users2 := eraseKey st.users uid
          let doomed := st.sessions.filter fun p => p.2.contains uid
          let sends := doomed.flatMap fun p =>
            p.2.filterMap fun m =>
              match users2.lookup m with
              | none => none
              | some _ => some (m, Out.sessionEnded p.1)
          (⟨users2, st.sessions.filter fun p => !(p.2.contains uid)⟩, sends)
        else (st, [])

end StableRelay

/- ==================================================================
   GroupRelay: the group-capable variant, second document of
   src/server.js (lines 316-588).
   ================================================================== -/

namespace GroupRelay

/-- A `groups` entry: `{ owner, members }`. -/
structure Group where
  owner : String
  members : List String
deriving DecidableEq, Repr

/-- The mutable module state: `users` (id to socket handle) and `groups`. -/
structure St where
  users : List (String × Nat)
  groups : List (String × Group)
deriving DecidableEq, Repr

/-- The `group-join-request` block (lines 525-540): membership is
unchanged, the owner (when registered) is notified. -/
def groupJoinRequest (st : St) (groupId userId : String) :
    List (String × Out) :=
  match st.groups.lookup groupId with
  | none => []
  | some g =>
      match st.users.lookup g.owner with
      | none => []
      | some _ => [(g.owner, Out.incomingRequest userId)]

/-- The `group-approve` block (lines 542-558): look the group up, push
`userId` onto `members`, notify the user when registered.  The handler
never reads `currentUserId`, so the acting identity is received here
(the callback closes over it) but unused: there is no owner check. -/
def groupApprove (_actor : String) (groupId userId : String) (st : St) :
    St × List (String × Out) :=
  match st.groups.lookup groupId with
  | none => (st, [])
  | some g =>
      let st2 : St :=
        { st with groups := setKey st.groups groupId ⟨g.owner, g.members ++ [userId]⟩ }
      (st2,
        match st.users.lookup userId with
        | none => []
        | some _ => [(userId, Out.groupJoined groupId)])

end GroupRelay

/- ==================================================================
   Claim theorems.
   ================================================================== -/

/-- C3: for every pair of identity strings the derived pairwise session
identifier is symmetric — `makeSessionId A B = makeSessionId B A` — because
the two ids are sorted and joined with the fixed separator. -/
theorem c3_makeSessionId_symm (a b : String) :
    makeSessionId a b = makeSessionId b a := by
  unfold makeSessionId
  rcases lt_trichotomy a b with h | h | h
  · rw [if_neg (asymm h), if_pos h]
  · rw [h]
  · rw [if_pos h, if_neg (asymm h)]

/-- C4, counterexample: a session thirty minutes and a millisecond old is
removed by the sweep, but the sweep emits no message at all — neither
participant is notified of the termination, contrary to the claim. -/
theorem c4_counterexample :
    Backend4.sweepExpired 1800001 [("a#b", ⟨"a", "b", 0⟩)] = ([], []) ∧
    (1800001 : Int) - 0 > Backend4.SESSION_TTL := by
  constructor
  · rfl
  · decide

/-- C4, amended: the TTL sweep of src/unnamed/part_001 lines 187-194
removes exactly the sessions whose age exceeds `SESSION_TTL` (thirty
minutes) and keeps the rest, but it notifies nobody: the sweep sends no
messages whatsoever. -/
theorem c4_amended (now : Int) (ss : List (String × Backend4.Session)) :
    (∀ p, p ∈ (Backend4.sweepExpired now ss).1 ↔
        p ∈ ss ∧ now - p.2.createdAt ≤ Backend4.SESSION_TTL)
    ∧ (Backend4.sweepExpired now ss).2 = [] := by
  induction ss with
  | nil =>
      refine ⟨fun p => ?_, rfl⟩
      simp [Backend4.sweepExpired]
  | cons q rest ih =>
      by_cases h : now - q.2.createdAt > Backend4.SESSION_TTL
      · have hq : Backend4.sweepExpired now (q :: rest) =
            Backend4.sweepExpired now rest := by
          simp [Backend4.sweepExpired, h]
        refine ⟨fun p => ?_, by rw [hq]; exact ih.2⟩
        rw [hq, ih.1 p]
        constructor
        · rintro ⟨hp, hle⟩
          exact ⟨List.mem_cons_of_mem _ hp, hle⟩
        · rintro ⟨hp, hle⟩
          rcases List.mem_cons.mp hp with rfl | hp
          · omega
          · exact ⟨hp, hle⟩
      · have hq : Backend4.sweepExpired now (q :: rest) =
            (q :: (Backend4.sweepExpired now rest).1,
              (Backend4.sweepExpired now rest).2) := by
          simp [Backend4.sweepExpired, h]
        refine ⟨fun p => ?_, by rw [hq]; exact ih.2⟩
        rw [hq]
        simp only [List.mem_cons, ih.1 p]
        constructor
        · rintro (rfl | ⟨hp, hle⟩)
          · exact ⟨Or.inl rfl, by omega⟩
          · exact ⟨Or.inr hp, hle⟩
        · rintro ⟨hp, hle⟩
          rcases hp with rfl | hp
          · exact Or.inl rfl
          · exact Or.inr ⟨hp, hle⟩

/-- C10: the Backend4 relay deduplicates on the client-supplied message
id.  When the sender is registered, its bucket is within the current
window and under the cap (so the gate admits), the envelope type is
`message`, its session exists, and its id is already in `recentMessages`,
the whole dispatch sends nothing, arms no timer, does not terminate, and
leaves clients, sessions and the recent set untouched — only the gate
increments the bucket of the sender. -/
theorem c10_theorem (now : Int) (uid : String) (ws : Nat)
    (st : Backend4.St) (data : Envelope) (s : Backend4.Session)
    (c : Nat) (t : Int)
    (hu : uid ≠ "") (ht : data.type = "message")
    (hb : st.rateLimits.lookup uid = some ⟨c, t⟩)
    (hw : now - t ≤ 5000) (hc : c ≤ 40)
    (hs : st.sessions.lookup data.sessionId = some s)
    (hdup : data.id ∈ st.recent) :
    Backend4.onMessage now uid ws st (some data) =
      ⟨{ st with rateLimits := setKey st.rateLimits uid ⟨c + 1, t⟩ },
        [], [], false, uid⟩ := by
  have hnw : ¬ now - t > 5000 := by omega
  have hnc : ¬ c > 40 := by omega
  simp [Backend4.onMessage, Backend4.messageRelay, Backend4.rateLimitCheck,
    ht, hu, hb, hs, hdup, hnw, hnc]

/-- C10, witness of `c10_theorem` at a concrete state: a registered,
admitted sender relays a duplicate id into an existing session and
nothing is delivered. -/
theorem c10_witness :
    Backend4.onMessage 0 "u1" 1
      ⟨[("u1", 1), ("u2", 2)], [("u1#u2", ⟨"u1", "u2", 0⟩)],
        [("u1", ⟨3, 0⟩)], ["m1"]⟩
      (some { Envelope.blank with
        type := "message", sessionId := "u1#u2", fromId := "u1",
        id := "m1", text := some "hi" }) =
      ⟨⟨[("u1", 1), ("u2", 2)], [("u1#u2", ⟨"u1", "u2", 0⟩)],
        [("u1", ⟨4, 0⟩)], ["m1"]⟩, [], [], false, "u1"⟩ :=
  c10_theorem 0 "u1" 1 _ _ ⟨"u1", "u2", 0⟩ 3 0 (by decide) (by decide)
    (by decide) (by decide) (by decide) (by decide) (by decide)

/-- Helper for C1: with a bucket at count `c` opened at time 0, `n`
further calls at instant 0 admit exactly `min n (41 - c)` of them (`41 - c`
is truncated subtraction, so a bucket past the cap admits nothing). -/
theorem repeatCalls_singleton (userId : String) :
    ∀ n c : Nat,
      (Backend4.repeatCalls 0 userId n [(userId, ⟨c, 0⟩)]).1 =
        min n (41 - c) := by
  intro n
  induction n with
  | zero => intro c; simp [Backend4.repeatCalls]
  | succ n ih =>
      intro c
      by_cases h : c > 40
      · have hr : Backend4.rateLimitCheck 0 userId [(userId, ⟨c, 0⟩)] =
            (false, [(userId, ⟨c, 0⟩)]) := by
          simp [Backend4.rateLimitCheck, List.lookup, h]
        simp only [Backend4.repeatCalls, hr]
        rw [ih c]
        simp
        omega
      · have hr : Backend4.rateLimitCheck 0 userId [(userId, ⟨c, 0⟩)] =
            (true, [(userId, ⟨c + 1, 0⟩)]) := by
          simp [Backend4.rateLimitCheck, List.lookup, setKey, h]
        simp only [Backend4.repeatCalls, hr]
        rw [ih (c + 1)]
        simp
        omega

/-- Helper for C1: from no bucket, `n` calls at one instant admit
`min n 41` of them. -/
theorem repeatCalls_from_empty (userId : String) (n : Nat) :
    (Backend4.repeatCalls 0 userId n []).1 = min n 41 := by
  cases n with
  | zero => simp [Backend4.repeatCalls]
  | succ n =>
      have hr : Backend4.rateLimitCheck 0 userId [] =
          (true, [(userId, ⟨1, 0⟩)]) := by
        simp [Backend4.rateLimitCheck, List.lookup, setKey]
      simp only [Backend4.repeatCalls, hr]
      rw [repeatCalls_singleton userId n 1]
      simp
      omega

/-- C1, counterexample: forty-one consecutive calls within one window by
a fresh identity are all admitted, so the forty-first call — the
`(C+1)`th with `C = 40` — is admitted rather than denied: the source
test `limit.count > 40` is checked before the increment, admitting
pre-increment counts 0 through 40. -/
theorem c1_counterexample :
    (Backend4.repeatCalls 0 "u" 41 []).1 = 41 := by
  rw [repeatCalls_from_empty]
  rfl

/-- C1, amended: within a single window a fresh identity gets exactly 41
admissions (`min n 41` of `n` calls), not 40; a denied call leaves the
bucket untouched and makes the dispatch terminate the connection with no
outbound traffic; and once the window has elapsed the bucket resets to
count 1 and admission resumes. -/
theorem c1_amended :
    (∀ userId : String, ∀ n : Nat,
        (Backend4.repeatCalls 0 userId n []).1 = min n 41)
    ∧ (∀ now t : Int, ∀ c : Nat, ∀ userId : String,
        now - t > 5000 →
        Backend4.rateLimitCheck now userId [(userId, ⟨c, t⟩)] =
          (true, [(userId, ⟨1, now⟩)]))
    ∧ (∀ now : Int, ∀ uid : String, ∀ ws : Nat, ∀ st : Backend4.St,
        ∀ data : Envelope, ∀ c : Nat, ∀ t : Int,
        uid ≠ "" → data.type ≠ "" → data.type ≠ "hello" →
        st.rateLimits.lookup uid = some ⟨c, t⟩ →
        now - t ≤ 5000 → c > 40 →
        Backend4.onMessage now uid ws st (some data) =
          ⟨st, [], [], true, uid⟩) := by
  refine ⟨repeatCalls_from_empty, fun now t c userId h => ?_, ?_⟩
  · simp [Backend4.rateLimitCheck, List.lookup, setKey, h]
  · intro now uid ws st data c t hu ht hh hb hw hc
    have hgate : Backend4.rateLimitCheck now uid st.rateLimits =
        (false, st.rateLimits) := by
      have hnw : ¬ now - t > 5000 := by omega
      simp [Backend4.rateLimitCheck, hb, hnw, hc]
    simp [Backend4.onMessage, ht, hh, hu, hgate]

/-- C1, witness of `c1_amended` at concrete inputs: fifty calls admit
exactly 41; a stale bucket resets to count 1; a registered identity over
the cap sending any further envelope is terminated with nothing sent. -/
theorem c1_witness :
    (Backend4.repeatCalls 0 "u" 50 []).1 = min 50 41
    ∧ Backend4.rateLimitCheck 9000 "u" [("u", ⟨7, 0⟩)] =
        (true, [("u", ⟨1, 9000⟩)])
    ∧ Backend4.onMessage 0 "u" 1 ⟨[("u", 1)], [], [("u", ⟨41, 0⟩)], []⟩
        (some { Envelope.blank with type := "request-chat" }) =
        ⟨⟨[("u", 1)], [], [("u", ⟨41, 0⟩)], []⟩, [], [], true, "u"⟩ :=
  ⟨c1_amended.1 "u" 50,
    c1_amended.2.1 9000 0 7 "u" (by decide),
    c1_amended.2.2 0 "u" 1 _ _ 41 0 (by decide) (by decide) (by decide)
      (by decide) (by decide) (by decide)⟩

/-- C2, counterexample: in the src/server.js variant the close handler
deletes the registry entry whenever the identity is present, without
comparing the stored handle with the closing socket.  Identity `id` is
bound to connection 2, yet the close of connection 1 (whose
`currentUserId` is still `id` from an earlier `hello`) removes the
binding — contrary to the claim, which requires it to survive. -/
theorem c2_counterexample :
    (⟨[("id", ⟨2, "User"⟩)], []⟩ : RelayV1.St).clients.lookup "id" =
        some ⟨2, "User"⟩
    ∧ (2 : Nat) ≠ 1
    ∧ (RelayV1.close 1 "id" 0 ⟨[("id", ⟨2, "User"⟩)], []⟩).1.clients.lookup
        "id" = none := by
  refine ⟨rfl, by decide, ?_⟩
  rfl

/-- C2, amended: the guarded behaviour of the claim holds in the
src/unnamed/part_000 variant — closing removes the binding iff the stored
socket is the closing one, and otherwise the whole state is untouched —
while in the src/server.js variant closing always removes the binding of
the identity registered on the closing connection, whatever handle the
entry currently stores. -/
theorem c2_amended :
    (∀ ws : Nat, ∀ uid : String, ∀ st : StableRelay.St,
      ∀ u : StableRelay.User,
        uid ≠ "" → st.users.lookup uid = some u →
        (u.socket = ws →
          (StableRelay.close ws uid st).1.users.lookup uid = none)
        ∧ (u.socket ≠ ws → StableRelay.close ws uid st = (st, [])))
    ∧ (∀ ws : Nat, ∀ uid : String, ∀ active : Int, ∀ st : RelayV1.St,
        uid ≠ "" →
        (RelayV1.close ws uid active st).1.clients.lookup uid = none) := by
  constructor
  · intro ws uid st u hu hl
    constructor
    · intro hsock
      simp [StableRelay.close, hu, hl, hsock, lookup_eraseKey_self]
    · intro hsock
      simp [StableRelay.close, hu, hl, hsock]
  · intro ws uid active st hu
    by_cases h : (st.clients.lookup uid).isSome
    · simp [RelayV1.close, hu, h, lookup_eraseKey_self]
    · have hn : st.clients.lookup uid = none := by
        cases hx : st.clients.lookup uid with
        | none => rfl
        | some c => rw [hx] at h; simp at h
      simp [RelayV1.close, hu, h, hn]

/-- C2, witness of `c2_amended` at concrete states: in part_000 closing
socket 5 removes the entry storing socket 5, closing socket 9 leaves an
entry storing socket 5 untouched; in server.js closing any socket removes
the entry of the closing identity. -/
theorem c2_witness :
    (StableRelay.close 5 "a" ⟨[("a", ⟨5, "N"⟩)], []⟩).1.users.lookup "a" =
        none
    ∧ StableRelay.close 9 "a" ⟨[("a", ⟨5, "N"⟩)], []⟩ =
        (⟨[("a", ⟨5, "N"⟩)], []⟩, [])
    ∧ (RelayV1.close 3 "a" 0 ⟨[("a", ⟨3, "N"⟩)], []⟩).1.clients.lookup "a" =
        none :=
  ⟨(c2_amended.1 5 "a" ⟨[("a", ⟨5, "N"⟩)], []⟩ ⟨5, "N"⟩ (by decide)
      (by decide)).1 (by decide),
    (c2_amended.1 9 "a" ⟨[("a", ⟨5, "N"⟩)], []⟩ ⟨5, "N"⟩ (by decide)
      (by decide)).2 (by decide),
    c2_amended.2 3 "a" 0 ⟨[("a", ⟨3, "N"⟩)], []⟩ (by decide)⟩

/-- Concrete state for the C5 counterexample: two registered clients and
one session between them, nothing rate-limited, nothing recently seen. -/
def st5 : Backend4.St :=
  ⟨[("u1", 1), ("u2", 2)], [("u1#u2", ⟨"u1", "u2", 0⟩)], [], []⟩

/-- Concrete envelope for the C5 counterexample. -/
def env5 : Envelope :=
  { Envelope.blank with
    type := "message", sessionId := "u1#u2", fromId := "u1", id := "m1",
    text := some "hi" }

/-- C5, counterexample: in the src/unnamed/part_001 variant a message
whose session resolves is forwarded verbatim (`Out.relay env5` is the
inbound envelope itself, no fresh server id or timestamp) and only to
the other participant: the sender `u1` — registered and a participant —
receives nothing, contrary to the claim that both participants receive a
server-built envelope. -/
theorem c5_counterexample :
    st5.sessions.lookup env5.sessionId = some ⟨"u1", "u2", 0⟩
    ∧ (st5.clients.lookup "u1").isSome = true
    ∧ (Backend4.messageRelay "u1" st5 env5).2.1 = [("u2", Out.relay env5)] := by
  refine ⟨rfl, rfl, ?_⟩
  rfl

/-- C5, amended: in the src/server.js variant the handler does behave as
claimed — for a resolvable session whose `aId` is the sender, it builds
one payload with the fresh id `sessionId:now:rand` and the server
timestamp and sends it to sender and peer (both registered here) — but in
the src/unnamed/part_001 variant any delivery of the message handler goes
only to the computed other participant and carries the client envelope
verbatim. -/
theorem c5_amended :
    (∀ now : Int, ∀ rand : String, ∀ st : RelayV1.St, ∀ data : Envelope,
      ∀ s : RelayV1.Sess, ∀ txt : String,
        data.sessionId ≠ "" → data.fromId ≠ "" → data.text = some txt →
        st.sessions.lookup data.sessionId = some s →
        data.fromId = s.aId → s.bId ≠ "" →
        (st.clients.lookup data.fromId).isSome = true →
        (st.clients.lookup s.bId).isSome = true →
        (RelayV1.messageRelay now rand st data).1 =
          [(data.fromId,
            Out.message (data.sessionId ++ ":" ++ toString now ++ ":" ++ rand)
              data.fromId s.bId txt (data.selfDestruct.getD 0) data.encrypted
              now),
           (s.bId,
            Out.message (data.sessionId ++ ":" ++ toString now ++ ":" ++ rand)
              data.fromId s.bId txt (data.selfDestruct.getD 0) data.encrypted
              now)])
    ∧ (∀ uid : String, ∀ st : Backend4.St, ∀ data : Envelope,
        ∀ s : Backend4.Session,
        st.sessions.lookup data.sessionId = some s →
        (Backend4.messageRelay uid st data).2.1 = []
        ∨ (Backend4.messageRelay uid st data).2.1 =
            [(if uid == s.aId then s.bId else s.aId, Out.relay data)]) := by
  constructor
  · intro now rand st data s txt h1 h2 h3 h4 h5 h6 h7 h8
    obtain ⟨ca, hca⟩ := Option.isSome_iff_exists.mp h7
    obtain ⟨cb, hcb⟩ := Option.isSome_iff_exists.mp h8
    have hab : (s.aId == data.fromId) = true := by simp [h5.symm]
    simp [RelayV1.messageRelay, RelayV1.sendToUser, h1, h2, h3, h4, hab, h6,
      hca, hcb]
  · intro uid st data s hs
    by_cases hd : data.id ∈ st.recent
    · left
      simp [Backend4.messageRelay, hs, hd]
    · cases hl : st.clients.lookup (if uid = s.aId then s.bId else s.aId) with
      | none =>
          left
          simp [Backend4.messageRelay, Backend4.sendToUser, hs, hd, hl]
      | some c =>
          right
          simp [Backend4.messageRelay, Backend4.sendToUser, hs, hd, hl]

/-- C5, witness of `c5_amended` at concrete inputs: the server.js message
from `u1` to `u2` is sent to both with the fresh id, while the part_001
delivery list is either empty or the single verbatim forward. -/
theorem c5_witness :
    (RelayV1.messageRelay 7 "r0"
      ⟨[("u1", ⟨1, "A"⟩), ("u2", ⟨2, "B"⟩)], [("u1#u2", ⟨"u1", "u2"⟩)]⟩
      { Envelope.blank with
        type := "message", sessionId := "u1#u2", fromId := "u1",
        text := some "hi" }).1 =
      [("u1", Out.message ("u1#u2" ++ ":" ++ toString (7 : Int) ++ ":" ++ "r0")
          "u1" "u2" "hi" 0 false 7),
       ("u2", Out.message ("u1#u2" ++ ":" ++ toString (7 : Int) ++ ":" ++ "r0")
          "u1" "u2" "hi" 0 false 7)]
    ∧ ((Backend4.messageRelay "u1" st5 env5).2.1 = []
        ∨ (Backend4.messageRelay "u1" st5 env5).2.1 =
            [(if "u1" == "u1" then "u2" else "u1", Out.relay env5)]) :=
  ⟨c5_amended.1 7 "r0" _ _ ⟨"u1", "u2"⟩ "hi" (by decide) (by decide) (by decide)
      (by decide) (by decide) (by decide) (by decide) (by decide),
    c5_amended.2 "u1" st5 env5 ⟨"u1", "u2", 0⟩ (by decide)⟩

/-- C6, counterexample: in the src/unnamed/part_001 variant a
`request-chat` to an unregistered destination is silently dropped — the
registered sender `u1` receives no `request-failed` (the handler returns
before any send), contrary to the claim. -/
theorem c6_counterexample :
    ((⟨[("u1", 1)], [], [], []⟩ : Backend4.St).clients.lookup "u1").isSome =
        true
    ∧ (⟨[("u1", 1)], [], [], []⟩ : Backend4.St).clients.lookup "u2" = none
    ∧ Backend4.requestChat ⟨[("u1", 1)], [], [], []⟩
        { Envelope.blank with
          type := "request-chat", fromId := "u1", toId := "u2" } = [] := by
  refine ⟨rfl, rfl, ?_⟩
  rfl

/-- C6, amended: in the src/server.js variant the claim holds — a
malformed chat id is answered with `request-failed "Invalid Chat ID
format."`, a well-formed but unregistered one with `request-failed
"Target user not online."`, both addressed to the claimed `fromId`, and
the `request-chat` dispatch never modifies the state — while the
src/unnamed/part_001 variant silently drops an unresolvable request
(no reply at all) and likewise creates no session. -/
theorem c6_amended :
    (∀ st : RelayV1.St, ∀ data : Envelope,
        data.fromId ≠ "" → data.toId ≠ "" →
        (st.clients.lookup data.fromId).isSome = true →
        (RelayV1.scIdFormat data.toId = false →
          RelayV1.requestChat st data =
            [(data.fromId, Out.requestFailed "Invalid Chat ID format.")])
        ∧ (RelayV1.scIdFormat data.toId = true →
            st.clients.lookup data.toId = none →
            RelayV1.requestChat st data =
              [(data.fromId, Out.requestFailed "Target user not online.")]))
    ∧ (∀ now : Int, ∀ rand uid : String, ∀ ws : Nat, ∀ active : Int,
        ∀ st : RelayV1.St, ∀ data : Envelope,
        data.type = "request-chat" →
        (RelayV1.onMessage now rand uid ws active st (some data)).st = st)
    ∧ (∀ st : Backend4.St, ∀ data : Envelope,
        st.clients.lookup data.toId = none →
        Backend4.requestChat st data = [])
    ∧ (∀ now : Int, ∀ uid : String, ∀ ws : Nat, ∀ st : Backend4.St,
        ∀ data : Envelope,
        data.type = "request-chat" →
        (Backend4.onMessage now uid ws st (some data)).st.sessions =
          st.sessions) := by
  refine ⟨?_, ?_, ?_, ?_⟩
  · intro st data h1 h2 h3
    obtain ⟨c, hc⟩ := Option.isSome_iff_exists.mp h3
    constructor
    · intro hfmt
      simp [RelayV1.requestChat, RelayV1.sendToUser, h1, h2, hfmt, hc]
    · intro hfmt hto
      simp [RelayV1.requestChat, RelayV1.sendToUser, h1, h2, hfmt, hto, hc]
  · intro now rand uid ws active st data ht
    by_cases hu : uid = ""
    · simp [RelayV1.onMessage, ht, hu]
    · simp [RelayV1.onMessage, ht, hu]
  · intro st data hto
    simp [Backend4.requestChat, hto]
  · intro now uid ws st data ht
    by_cases hu : uid = ""
    · simp [Backend4.onMessage, ht, hu]
    · by_cases hg : (Backend4.rateLimitCheck now uid st.rateLimits).1
      · simp [Backend4.onMessage, ht, hu, hg]
      · simp [Backend4.onMessage, ht, hu, hg]

/-- C6, witness of `c6_amended` at concrete inputs: a malformed id and an
offline well-formed id each draw the matching `request-failed` in
server.js with no state change, and the part_001 variant replies with
nothing. -/
theorem c6_witness :
    (RelayV1.requestChat ⟨[("u1", ⟨1, "A"⟩)], []⟩
        { Envelope.blank with
          type := "request-chat", fromId := "u1", toId := "nope" } =
      [("u1", Out.requestFailed "Invalid Chat ID format.")])
    ∧ (RelayV1.requestChat ⟨[("u1", ⟨1, "A"⟩)], []⟩
        { Envelope.blank with
          type := "request-chat", fromId := "u1", toId := "SC-AAAA-0000" } =
      [("u1", Out.requestFailed "Target user not online.")])
    ∧ (RelayV1.onMessage 0 "r" "u1" 1 0 ⟨[("u1", ⟨1, "A"⟩)], []⟩
        (some { Envelope.blank with
          type := "request-chat", fromId := "u1", toId := "nope" })).st =
      ⟨[("u1", ⟨1, "A"⟩)], []⟩
    ∧ Backend4.requestChat ⟨[("u1", 1)], [], [], []⟩
        { Envelope.blank with
          type := "request-chat", fromId := "u1", toId := "SC-AAAA-0000" } = []
    ∧ (Backend4.onMessage 0 "u1" 1 ⟨[("u1", 1)], [], [], []⟩
        (some { Envelope.blank with
          type := "request-chat", fromId := "u1",
          toId := "SC-AAAA-0000" })).st.sessions = [] :=
  ⟨(c6_amended.1 _ _ (by decide) (by decide) (by decide)).1 (by decide),
    (c6_amended.1 _ _ (by decide) (by decide) (by decide)).2 (by decide)
      (by decide),
    c6_amended.2.1 0 "r" "u1" 1 0 _ _ (by decide),
    c6_amended.2.2.1 _ _ (by decide),
    c6_amended.2.2.2 0 "u1" 1 _ _ (by decide)⟩

/-- Concrete state for the C7 counterexample: one session with two
registered members in the part_000 variant. -/
def st7 : StableRelay.St :=
  ⟨[("u1", ⟨1, "A"⟩), ("u2", ⟨2, "B"⟩)], [("S-1", ["u1", "u2"])]⟩

/-- Concrete envelope for the C7 counterexample: a ten-minute
self-destruct, twice the claimed five-minute maximum. -/
def env7 : Envelope :=
  { Envelope.blank with
    type := "message", sessionId := "S-1", fromId := "u1",
    text := some "hi", selfDestruct := some 600000 }

/-- C7, counterexample: the src/unnamed/part_000 message handler arms a
deferred delete for a `selfDestruct` of 600000 ms — far above the
five-minute bound — with the full ten-minute delay, neither rejected nor
clamped, contrary to the claim. -/
theorem c7_counterexample :
    (StableRelay.messageRelay 0 st7 env7).2 =
        [Timer.deleteBody 600000 "S-1" 0]
    ∧ (600000 : Int) > 5 * 60 * 1000 := by
  refine ⟨?_, by decide⟩
  rfl

/-- C7, amended: the bound holds only in the src/server.js variant,
where (for a message that passes validation and resolves its session) a
delete timer is armed iff `selfDestruct` is strictly positive and at
most `5 * 60 * 1000` ms; the src/unnamed/part_000 variant arms a timer
iff `selfDestruct` is present and strictly positive, with no upper bound
at all. -/
theorem c7_amended :
    (∀ now : Int, ∀ rand : String, ∀ st : RelayV1.St, ∀ data : Envelope,
      ∀ s : RelayV1.Sess, ∀ txt : String,
        data.sessionId ≠ "" → data.fromId ≠ "" → data.text = some txt →
        st.sessions.lookup data.sessionId = some s →
        data.fromId = s.aId → s.bId ≠ "" →
        ((RelayV1.messageRelay now rand st data).2 ≠ [] ↔
          0 < data.selfDestruct.getD 0 ∧
            data.selfDestruct.getD 0 ≤ 5 * 60 * 1000))
    ∧ (∀ now : Int, ∀ st : StableRelay.St, ∀ data : Envelope,
        (st.sessions.lookup data.sessionId).isSome = true →
        ((StableRelay.messageRelay now st data).2 ≠ [] ↔
          ∃ n : Int, data.selfDestruct = some n ∧ 0 < n)) := by
  constructor
  · intro now rand st data s txt h1 h2 h3 h4 h5 h6
    have hab : (s.aId == data.fromId) = true := by simp [h5.symm]
    by_cases hsd : 0 < data.selfDestruct.getD 0 ∧
        data.selfDestruct.getD 0 ≤ 5 * 60 * 1000
    · simp [RelayV1.messageRelay, h1, h2, h3, h4, hab, h6, hsd]
    · simp [RelayV1.messageRelay, h1, h2, h3, h4, hab, h6, hsd]
  · intro now st data hs
    obtain ⟨mem, hseq⟩ := Option.isSome_iff_exists.mp hs
    cases hsd : data.selfDestruct with
    | none => simp [StableRelay.messageRelay, hseq, hsd]
    | some n =>
        rcases lt_trichotomy n 0 with hn | hn | hn
        · have hnz : (n != 0) = true := by
            simp
            omega
          have hng : ¬n > 0 := by omega
          simp [StableRelay.messageRelay, hseq, hsd, hnz, hng]
        · subst hn
          simp [StableRelay.messageRelay, hseq, hsd]
        · have hnz : (n != 0) = true := by
            simp
            omega
          simp [StableRelay.messageRelay, hseq, hsd, hnz, hn]

/-- C7, witness of `c7_amended` at concrete inputs: a four-minute TTL in
server.js arms a timer, and the part_000 ten-minute envelope arms one
because its TTL is positive — the bound plays no part there. -/
theorem c7_witness :
    ((RelayV1.messageRelay 0 "r"
        ⟨[("u1", ⟨1, "A"⟩), ("u2", ⟨2, "B"⟩)], [("u1#u2", ⟨"u1", "u2"⟩)]⟩
        { Envelope.blank with
          type := "message", sessionId := "u1#u2", fromId := "u1",
          text := some "hi", selfDestruct := some 240000 }).2 ≠ [] ↔
      0 < (240000 : Int) ∧ (240000 : Int) ≤ 5 * 60 * 1000)
    ∧ ((StableRelay.messageRelay 0 st7 env7).2 ≠ [] ↔
        ∃ n : Int, env7.selfDestruct = some n ∧ 0 < n) :=
  ⟨by
      have h := c7_amended.1 0 "r"
        ⟨[("u1", ⟨1, "A"⟩), ("u2", ⟨2, "B"⟩)], [("u1#u2", ⟨"u1", "u2"⟩)]⟩
        { Envelope.blank with
          type := "message", sessionId := "u1#u2", fromId := "u1",
          text := some "hi", selfDestruct := some 240000 }
        ⟨"u1", "u2"⟩ "hi" (by decide) (by decide) (by decide) (by decide)
        (by decide) (by decide)
      exact h,
    c7_amended.2 0 st7 env7 (by decide)⟩

/-- C8, counterexample: in the src/unnamed/part_001 variant an envelope
of unknown type `bogus` from a registered sender produces no outbound
traffic, but it does change the rate-limit state: the admission gate runs
before dispatch and increments the bucket of the sender from count 5 to
count 6 — an observable change, contrary to the claim. -/
theorem c8_counterexample :
    (Backend4.onMessage 0 "u" 1 ⟨[("u", 1)], [], [("u", ⟨5, 0⟩)], []⟩
        (some { Envelope.blank with type := "bogus" })).sends = []
    ∧ (Backend4.onMessage 0 "u" 1 ⟨[("u", 1)], [], [("u", ⟨5, 0⟩)], []⟩
        (some { Envelope.blank with type := "bogus" })).st.rateLimits =
      [("u", ⟨6, 0⟩)]
    ∧ [("u", (⟨6, 0⟩ : Backend4.Bucket))] ≠ [("u", ⟨5, 0⟩)] := by
  refine ⟨rfl, rfl, by decide⟩

/-- C8, amended: a frame that fails JSON parsing changes nothing and
sends nothing in both embedded dispatchers; an envelope of unknown type
sends nothing and — in the src/server.js variant — changes nothing at
all, while in the src/unnamed/part_001 variant the registered sender
still passes through the rate-limit gate, so the rate-limit map is
updated by the admission check (and the connection is terminated when the
check denies) although clients, sessions and the recent set stay
untouched. -/
theorem c8_amended :
    (∀ now : Int, ∀ uid : String, ∀ ws : Nat, ∀ st : Backend4.St,
        Backend4.onMessage now uid ws st none = ⟨st, [], [], false, uid⟩)
    ∧ (∀ now : Int, ∀ rand uid : String, ∀ ws : Nat, ∀ active : Int,
        ∀ st : RelayV1.St,
        RelayV1.onMessage now rand uid ws active st none = ⟨st, [], [], uid⟩)
    ∧ (∀ now : Int, ∀ rand uid : String, ∀ ws : Nat, ∀ active : Int,
        ∀ st : RelayV1.St, ∀ data : Envelope,
        data.type ∉ (["hello", "request-chat", "response-chat", "message",
          "edit-message", "end-session", "get-stats"] : List String) →
        RelayV1.onMessage now rand uid ws active st (some data) =
          ⟨st, [], [], uid⟩)
    ∧ (∀ now : Int, ∀ uid : String, ∀ ws : Nat, ∀ st : Backend4.St,
        ∀ data : Envelope,
        uid ≠ "" →
        data.type ∉ (["", "hello", "request-chat", "response-chat",
          "message", "get-turn"] : List String) →
        Backend4.onMessage now uid ws st (some data) =
          ⟨{ st with
              rateLimits := (Backend4.rateLimitCheck now uid st.rateLimits).2 },
            [], [], !(Backend4.rateLimitCheck now uid st.rateLimits).1,
            uid⟩) := by
  refine ⟨fun now uid ws st => rfl, fun now rand uid ws active st => rfl,
    ?_, ?_⟩
  · intro now rand uid ws active st data hmem
    simp only [List.mem_cons, List.mem_singleton, not_or] at hmem
    obtain ⟨h1, h2, h3, h4, h5, h6, h7, _⟩ := hmem
    by_cases hu : uid = ""
    · simp [RelayV1.onMessage, h1, h2, h3, h4, h5, h6, h7, hu]
    · simp [RelayV1.onMessage, h1, h2, h3, h4, h5, h6, h7, hu]
  · intro now uid ws st data hu hmem
    simp only [List.mem_cons, List.mem_singleton, not_or] at hmem
    obtain ⟨h0, h1, h2, h3, h4, h5, _⟩ := hmem
    by_cases hg : (Backend4.rateLimitCheck now uid st.rateLimits).1
    · simp [Backend4.onMessage, h0, h1, h2, h3, h4, h5, hu, hg]
    · have hg2 : (Backend4.rateLimitCheck now uid st.rateLimits).1 = false := by
        revert hg
        cases (Backend4.rateLimitCheck now uid st.rateLimits).1 <;> simp
      simp [Backend4.onMessage, h0, h1, h2, h3, h4, h5, hu, hg2]

/-- C8, witness of `c8_amended` at concrete inputs: an unparseable frame
is inert in both variants, an unknown type is fully inert in server.js,
and in part_001 it only drives the admission bookkeeping of the gate. -/
theorem c8_witness :
    Backend4.onMessage 0 "u" 1 ⟨[("u", 1)], [], [], []⟩ none =
        ⟨⟨[("u", 1)], [], [], []⟩, [], [], false, "u"⟩
    ∧ RelayV1.onMessage 0 "r" "u" 1 0 ⟨[("u", ⟨1, "A"⟩)], []⟩ none =
        ⟨⟨[("u", ⟨1, "A"⟩)], []⟩, [], [], "u"⟩
    ∧ RelayV1.onMessage 0 "r" "u" 1 0 ⟨[("u", ⟨1, "A"⟩)], []⟩
        (some { Envelope.blank with type := "bogus" }) =
        ⟨⟨[("u", ⟨1, "A"⟩)], []⟩, [], [], "u"⟩
    ∧ Backend4.onMessage 0 "u" 1 ⟨[("u", 1)], [], [("u", ⟨5, 0⟩)], []⟩
        (some { Envelope.blank with type := "bogus" }) =
        ⟨{ (⟨[("u", 1)], [], [("u", ⟨5, 0⟩)], []⟩ : Backend4.St) with
            rateLimits :=
              (Backend4.rateLimitCheck 0 "u" [("u", ⟨5, 0⟩)]).2 },
          [], [], !(Backend4.rateLimitCheck 0 "u" [("u", ⟨5, 0⟩)]).1, "u"⟩ :=
  ⟨c8_amended.1 0 "u" 1 _,
    c8_amended.2.1 0 "r" "u" 1 0 _,
    c8_amended.2.2.1 0 "r" "u" 1 0 _ _ (by decide),
    c8_amended.2.2.2 0 "u" 1 _ _ (by decide) (by decide)⟩

/-- C9, counterexample: in the group-capable variant of src/server.js the
`group-approve` handler performs no owner check.  The group `g` is owned
by `O`, the acting identity is `X ≠ O`, and the approval still appends
`U` to the membership and notifies `U` — contrary to the claim that a
non-owner approval changes no membership. -/
theorem c9_counterexample :
    ("X" : String) ≠ "O"
    ∧ (GroupRelay.groupApprove "X" "g" "U"
        ⟨[("U", 7)], [("g", ⟨"O", ["O"]⟩)]⟩).1.groups.lookup "g" =
      some ⟨"O", ["O", "U"]⟩
    ∧ (GroupRelay.groupApprove "X" "g" "U"
        ⟨[("U", 7)], [("g", ⟨"O", ["O"]⟩)]⟩).2 =
      [("U", Out.groupJoined "g")] := by
  refine ⟨by decide, rfl, rfl⟩

/-- C9, amended: `group-approve` is not owner-only — for every acting
identity whatsoever, when the group exists the named user is appended to
its members (and notified exactly when registered); the actor is never
compared with the owner. -/
theorem c9_amended (actor groupId userId : String) (st : GroupRelay.St)
    (g : GroupRelay.Group) (hg : st.groups.lookup groupId = some g) :
    (GroupRelay.groupApprove actor groupId userId st).1.groups.lookup
        groupId = some ⟨g.owner, g.members ++ [userId]⟩
    ∧ ((st.users.lookup userId).isSome = true →
        (GroupRelay.groupApprove actor groupId userId st).2 =
          [(userId, Out.groupJoined groupId)])
    ∧ ((st.users.lookup userId).isNone = true →
        (GroupRelay.groupApprove actor groupId userId st).2 = []) := by
  refine ⟨?_, ?_, ?_⟩
  · simp [GroupRelay.groupApprove, hg, lookup_setKey_self]
  · intro hu
    obtain ⟨c, hc⟩ := Option.isSome_iff_exists.mp hu
    simp [GroupRelay.groupApprove, hg, hc]
  · intro hu
    have hn : st.users.lookup userId = none := Option.isNone_iff_eq_none.mp hu
    simp [GroupRelay.groupApprove, hg, hn]

/-- C9, witness of `c9_amended` at a concrete state: the non-owner `X`
approves and the membership of `g` grows anyway, with the registered
user notified. -/
theorem c9_witness :
    (GroupRelay.groupApprove "X" "g" "U"
        ⟨[("U", 7)], [("g", ⟨"O", ["O"]⟩)]⟩).1.groups.lookup "g" =
      some ⟨"O", ["O"] ++ ["U"]⟩
    ∧ (GroupRelay.groupApprove "X" "g" "U"
        ⟨[("U", 7)], [("g", ⟨"O", ["O"]⟩)]⟩).2 =
      [("U", Out.groupJoined "g")] :=
  ⟨(c9_amended "X" "g" "U" _ ⟨"O", ["O"]⟩ (by decide)).1,
    (c9_amended "X" "g" "U" _ ⟨"O", ["O"]⟩ (by decide)).2.1 (by decide)⟩

end ShadowChat
